import Mathlib

/-!
Shallow embedding of `src/storage.py` (class `Storage`): an append-only
binary log with a 2048-byte superblock holding an 8-byte big-endian root
address, length-prefixed records, and an advisory file lock.

The backing file is a `List Nat` of bytes together with a cursor position;
Python file semantics are modelled faithfully: `file.read(n)` returns at
most `n` bytes (short at end-of-file), `file.write` overwrites in place from
the cursor and extends the file (zero-filling any gap), `seek`/`tell` move
and report the cursor.  Python exceptions are modelled with `Except`: each
fallible operation returns `Except PyError α × Storage`, the second
component being the object state at the point the exception escaped
(partial mutations applied), as in Python.
-/

/-- Error classes observable from `storage.py`.  `structError` is the error
raised by `struct.pack`/`struct.unpack` on bad input; `corruptData` and
`lockError` are the `CorruptData` and `LockError` classes named by the
specification's error taxonomy (the source itself defines no error classes,
so `corruptData` is never produced by the embedded code; `lockError` models
the error raised by a failing `portalocker.lock` call). -/
inductive PyError where
  | structError
  | corruptData
  | lockError
deriving DecidableEq, Repr

/-- `Storage.SUPERBLOCK_SIZE = 2048`. -/
def SUPERBLOCK_SIZE : Nat := 2048

/-- `Storage.INTEGER_LENGTH = 8`. -/
def INTEGER_LENGTH : Nat := 8

/-- The big-endian base-256 digits of `i`, `n` bytes wide: the byte string
produced by `struct.pack("!Q", i)` when `n = 8` and `i` is in range. -/
def bytesBE : Nat → Nat → List Nat
  | 0, _ => []
  | n + 1, i => i / 256 ^ n % 256 :: bytesBE n i

/-- Big-endian base-256 value of a byte string, as computed by
`struct.unpack("!Q", bs)` on an 8-byte input. -/
def beVal (bs : List Nat) : Nat :=
  List.foldl (fun a b => a * 256 + b) 0 bs

/-- `Storage._itob`: `struct.pack("!Q", integer)`.  `struct.error` when the
integer does not fit an unsigned 64-bit field. -/
def itob (integer : Nat) : Except PyError (List Nat) :=
  if integer < 2 ^ 64 then Except.ok (bytesBE 8 integer)
  else Except.error PyError.structError

/-- `Storage._btoi`: `struct.unpack("!Q", bytes_)[0]`.  `struct.unpack`
itself raises `struct.error` unless the buffer is exactly 8 bytes; there is
no explicit length check in the source. -/
def btoi (bytes_ : List Nat) : Except PyError Nat :=
  if bytes_.length = INTEGER_LENGTH then Except.ok (beVal bytes_)
  else Except.error PyError.structError

/-- The `Storage` object: backing file contents, file cursor, lock flag. -/
structure Storage where
  file : List Nat
  pos : Nat
  locked : Bool
deriving DecidableEq, Repr

namespace Storage

/-- Python `file.write(bs)` at cursor `pos`: overwrite in place, extend at
the end, zero-fill a gap left by seeking past end-of-file. -/
def spliceAt (file : List Nat) (pos : Nat) (bs : List Nat) : List Nat :=
  file.take pos ++ List.replicate (pos - file.length) 0 ++ bs
    ++ file.drop (pos + bs.length)

/-- `self._file.seek(n)`. -/
def seek (s : Storage) (n : Nat) : Storage := { s with pos := n }

/-- `Storage._seek_superblock`: `self._file.seek(0)`. -/
def seek_superblock (s : Storage) : Storage := s.seek 0

/-- `Storage._seek_end`: `self._file.seek(0, os.SEEK_END)`. -/
def seek_end (s : Storage) : Storage := { s with pos := s.file.length }

/-- `self._file.tell()`. -/
def tell (s : Storage) : Nat := s.pos

/-- `self._file.read(n)`: up to `n` bytes from the cursor, short at
end-of-file; the cursor advances by the number of bytes actually read. -/
def fileRead (s : Storage) (n : Nat) : List Nat × Storage :=
  let r := (s.file.drop s.pos).take n
  (r, { s with pos := s.pos + r.length })

/-- `self._file.write(bs)`. -/
def fileWrite (s : Storage) (bs : List Nat) : Storage :=
  { s with file := spliceAt s.file s.pos bs, pos := s.pos + bs.length }

/-- `Storage.lock` with the outcome of the underlying
`portalocker.lock(self._file, portalocker.LOCK_EX)` call made explicit:
if the flag is already set the OS call is skipped and `False` is returned;
otherwise the OS call runs, and only on success is `self.locked = True`
reached (an exception escapes before the assignment). -/
def lockWith (s : Storage) (os : Except PyError Unit) :
    Except PyError Bool × Storage :=
  if s.locked then (Except.ok false, s)
  else
    match os with
    | Except.ok _ => (Except.ok true, { s with locked := true })
    | Except.error e => (Except.error e, s)

/-- `Storage.lock` on the happy path (the `portalocker.lock` call
succeeds), as assumed by every internal call site. -/
def lock (s : Storage) : Bool × Storage :=
  if s.locked then (false, s) else (true, { s with locked := true })

/-- `Storage.unlock`: if held, flush (no file-content effect) and clear the
flag; no-op otherwise. -/
def unlock (s : Storage) : Storage :=
  if s.locked then { s with locked := false } else s

/-- `Storage._reserve_superblock`: lock, seek to end, and if the file is
shorter than `SUPERBLOCK_SIZE` pad it with zero bytes up to exactly
`SUPERBLOCK_SIZE`. -/
def reserve_superblock (s : Storage) : Storage :=
  let s1 := (s.lock).2
  let s2 := s1.seek_end
  let address := s2.tell
  if address < SUPERBLOCK_SIZE then
    s2.fileWrite (List.replicate (SUPERBLOCK_SIZE - address) 0)
  else s2

/-- `Storage._write_integer`: lock, then write the packed integer at the
current cursor. -/
def write_integer (s : Storage) (integer : Nat) :
    Except PyError Unit × Storage :=
  let s1 := (s.lock).2
  match itob integer with
  | Except.ok bs => (Except.ok (), s1.fileWrite bs)
  | Except.error e => (Except.error e, s1)

/-- `Storage._read_integer`: read `INTEGER_LENGTH` bytes (possibly short)
and unpack them. -/
def read_integer (s : Storage) : Except PyError Nat × Storage :=
  let r := s.fileRead INTEGER_LENGTH
  match btoi r.1 with
  | Except.ok n => (Except.ok n, r.2)
  | Except.error e => (Except.error e, r.2)

/-- `Storage.get_root_address`: seek to the superblock and read an
integer. -/
def get_root_address (s : Storage) : Except PyError Nat × Storage :=
  s.seek_superblock.read_integer

/-- `Storage.commit_root_address`: lock, flush, seek to the superblock,
write the packed address, flush, unlock.  (On a `struct.error` from the
pack the exception escapes before `unlock` is reached.) -/
def commit_root_address (s : Storage) (root_address : Nat) :
    Except PyError Unit × Storage :=
  let s1 := (s.lock).2
  let s2 := s1.seek_superblock
  match s2.write_integer root_address with
  | (Except.ok _, s3) => (Except.ok (), s3.unlock)
  | (Except.error e, s3) => (Except.error e, s3)

/-- `Storage.write`: lock, seek to end, remember the offset, write the
8-byte length then the payload, return the offset. -/
def write (s : Storage) (data : List Nat) : Except PyError Nat × Storage :=
  let s1 := (s.lock).2
  let s2 := s1.seek_end
  let address := s2.tell
  match s2.write_integer data.length with
  | (Except.ok _, s3) => (Except.ok address, s3.fileWrite data)
  | (Except.error e, s3) => (Except.error e, s3)

/-- `Storage.read`: seek to `address`, read the 8-byte length prefix, then
read that many bytes (no lock, no range or corruption check). -/
def read (s : Storage) (address : Nat) :
    Except PyError (List Nat) × Storage :=
  let s1 := s.seek address
  match s1.read_integer with
  | (Except.ok length, s2) =>
    let r := s2.fileRead length
    (Except.ok r.1, r.2)
  | (Except.error e, s2) => (Except.error e, s2)

/-- `Storage.close`: unlock (file-handle closing has no content effect). -/
def close (s : Storage) : Storage := s.unlock

end Storage

/-- `Storage.__init__(file)`: fresh flags, then `_reserve_superblock`. -/
def openStore (file : List Nat) : Storage :=
  Storage.reserve_superblock { file := file, pos := 0, locked := false }

/-- A public operation of the store, per the external interface
(`write`, `read`, `get_root_address`, `commit_root_address`, `close`). -/
inductive Op where
  | writeRec (data : List Nat)
  | readRec (address : Nat)
  | getRoot
  | commitRoot (root_address : Nat)
  | closeOp
deriving DecidableEq, Repr

/-- Run one public operation, keeping the resulting object state (also on
an exception, as in Python). -/
def applyOp (s : Storage) : Op → Storage
  | Op.writeRec data => (s.write data).2
  | Op.readRec address => (s.read address).2
  | Op.getRoot => (s.get_root_address).2
  | Op.commitRoot r => (s.commit_root_address r).2
  | Op.closeOp => s.close

/-- Run a sequence of public operations. -/
def runOps (s : Storage) (ops : List Op) : Storage :=
  List.foldl applyOp s ops

/-! ### Helper lemmas about the codec -/

theorem length_bytesBE (n i : Nat) : (bytesBE n i).length = n := by
  induction n generalizing i with
  | zero => rfl
  | succ n ih => simp [bytesBE, ih]

theorem foldl_bytesBE (n : Nat) :
    ∀ a i, List.foldl (fun x b => x * 256 + b) a (bytesBE n i)
      = a * 256 ^ n + i % 256 ^ n := by
  induction n with
  | zero => intro a i; simp [bytesBE, Nat.mod_one]
  | succ n ih =>
    intro a i
    simp only [bytesBE, List.foldl_cons, ih]
    have h256 : (256 : Nat) ^ (n + 1) = 256 ^ n * 256 := by ring
    rw [h256, Nat.mod_mul]
    ring

theorem beVal_bytesBE (i : Nat) (h : i < 2 ^ 64) : beVal (bytesBE 8 i) = i := by
  have hfold := foldl_bytesBE 8 0 i
  have h2 : (256 : Nat) ^ 8 = 2 ^ 64 := by norm_num
  rw [beVal, hfold, h2]
  simpa using Nat.mod_eq_of_lt h

theorem foldl_zero_bytes (bs : List Nat) (hz : ∀ b ∈ bs, b = 0) :
    ∀ a, List.foldl (fun x b => x * 256 + b) a bs = a * 256 ^ bs.length := by
  induction bs with
  | nil => simp
  | cons b bs ih =>
    intro a
    have hb : b = 0 := hz b (by simp)
    subst hb
    have ih' := ih (fun x hx => hz x (by simp [hx])) (a * 256 + 0)
    simp only [List.foldl_cons, ih', List.length_cons]
    ring

theorem beVal_zero (bs : List Nat) (hz : ∀ b ∈ bs, b = 0) : beVal bs = 0 := by
  rw [beVal, foldl_zero_bytes bs hz 0]
  ring

/-! ### Helper lemmas about the file model -/

theorem spliceAt_length (f : List Nat) (p : Nat) (bs : List Nat) :
    (Storage.spliceAt f p bs).length = max f.length (p + bs.length) := by
  simp [Storage.spliceAt]
  omega

theorem spliceAt_append (f bs : List Nat) :
    Storage.spliceAt f f.length bs = f ++ bs := by
  simp [Storage.spliceAt, List.drop_eq_nil_of_le (by omega : f.length ≤ f.length + bs.length)]

theorem spliceAt_zero (f bs : List Nat) :
    Storage.spliceAt f 0 bs = bs ++ f.drop bs.length := by
  simp [Storage.spliceAt]

theorem lock_snd (s : Storage) : (s.lock).2 = { s with locked := true } := by
  cases s with
  | mk f p l => cases l <;> simp [Storage.lock]

/-! ### Characterizations of the operations -/

theorem write_eq (s : Storage) (data : List Nat) (hd : data.length < 2 ^ 64) :
    s.write data =
      (Except.ok s.file.length,
        { file := s.file ++ bytesBE 8 data.length ++ data,
          pos := s.file.length + 8 + data.length, locked := true }) := by
  have hsplice2 : Storage.spliceAt (s.file ++ bytesBE 8 data.length)
      (s.file.length + 8) data
      = s.file ++ bytesBE 8 data.length ++ data := by
    have hlen : (s.file ++ bytesBE 8 data.length).length = s.file.length + 8 := by
      simp [length_bytesBE]
    rw [← hlen, spliceAt_append, List.append_assoc]
  simp only [Storage.write, Storage.write_integer, lock_snd, Storage.seek_end,
    Storage.tell, Storage.fileWrite, itob, if_pos hd]
  simp [spliceAt_append, hsplice2, INTEGER_LENGTH, length_bytesBE, Nat.add_assoc]

theorem commit_eq (s : Storage) (r : Nat) (hr : r < 2 ^ 64) :
    s.commit_root_address r =
      (Except.ok (),
        { file := bytesBE 8 r ++ s.file.drop 8, pos := 8, locked := false }) := by
  simp only [Storage.commit_root_address, Storage.write_integer, lock_snd,
    Storage.seek_superblock, Storage.seek, Storage.fileWrite, itob, if_pos hr]
  simp [spliceAt_zero, length_bytesBE, Storage.unlock]

theorem read_fst (s : Storage) (address : Nat) :
    (s.read address).1 =
      if (s.file.drop address).length < 8 then Except.error PyError.structError
      else Except.ok ((s.file.drop (address + 8)).take
        (beVal ((s.file.drop address).take 8))) := by
  by_cases h : (s.file.drop address).length < 8
  · have hd8 : s.file.length - address < 8 := by simpa using h
    simp [Storage.read, Storage.read_integer, Storage.fileRead, Storage.seek,
      btoi, INTEGER_LENGTH, List.length_take, List.length_drop, hd8,
      Nat.not_le.mpr hd8]
  · have hd8 : 8 ≤ s.file.length - address := by simpa using h
    simp [Storage.read, Storage.read_integer, Storage.fileRead, Storage.seek,
      btoi, INTEGER_LENGTH, List.length_take, List.length_drop, hd8,
      Nat.not_lt.mpr hd8, Nat.min_eq_left hd8]

theorem get_root_fst (s : Storage) (h : 8 ≤ s.file.length) :
    (s.get_root_address).1 = Except.ok (beVal (s.file.take 8)) := by
  simp [Storage.get_root_address, Storage.seek_superblock, Storage.seek,
    Storage.read_integer, Storage.fileRead, btoi, INTEGER_LENGTH,
    List.length_take, List.length_drop, h]

theorem openStore_file (l : List Nat) :
    (openStore l).file = l ++ List.replicate (SUPERBLOCK_SIZE - l.length) 0 := by
  by_cases h : l.length < SUPERBLOCK_SIZE
  · simp [openStore, Storage.reserve_superblock, lock_snd, Storage.seek_end,
      Storage.tell, Storage.fileWrite, h, spliceAt_append]
  · have h0 : SUPERBLOCK_SIZE - l.length = 0 := by omega
    simp [openStore, Storage.reserve_superblock, lock_snd, Storage.seek_end,
      Storage.tell, h, h0]

theorem openStore_length (l : List Nat) :
    SUPERBLOCK_SIZE ≤ (openStore l).file.length := by
  rw [openStore_file]
  simp
  omega

theorem read_snd_file (s : Storage) (a : Nat) : (s.read a).2.file = s.file := by
  simp only [Storage.read, Storage.read_integer, Storage.fileRead, Storage.seek]
  cases btoi ((s.file.drop a).take INTEGER_LENGTH) <;> rfl

theorem get_root_snd_file (s : Storage) :
    (s.get_root_address).2.file = s.file := by
  simp only [Storage.get_root_address, Storage.seek_superblock, Storage.seek,
    Storage.read_integer, Storage.fileRead]
  cases btoi ((s.file.drop 0).take INTEGER_LENGTH) <;> rfl

theorem le_length_applyOp (s : Storage) (op : Op) :
    s.file.length ≤ (applyOp s op).file.length := by
  cases op with
  | writeRec data =>
    by_cases hd : data.length < 2 ^ 64
    · simp [applyOp, write_eq s data hd]
    · rw [show (2 : Nat) ^ 64 = 18446744073709551616 from by norm_num] at hd
      simp [applyOp, Storage.write, Storage.write_integer, lock_snd,
        Storage.seek_end, Storage.tell, itob, hd]
  | readRec a => simp [applyOp, read_snd_file]
  | getRoot => simp [applyOp, get_root_snd_file]
  | commitRoot r =>
    by_cases hr : r < 2 ^ 64
    · simp [applyOp, commit_eq s r hr, length_bytesBE]
      omega
    · rw [show (2 : Nat) ^ 64 = 18446744073709551616 from by norm_num] at hr
      simp [applyOp, Storage.commit_root_address, Storage.write_integer,
        lock_snd, Storage.seek_superblock, Storage.seek, itob, hr]
  | closeOp =>
    simp only [applyOp, Storage.close, Storage.unlock]
    split <;> simp

theorem runOps_ge (ops : List Op) :
    ∀ s : Storage, SUPERBLOCK_SIZE ≤ s.file.length →
      SUPERBLOCK_SIZE ≤ (runOps s ops).file.length := by
  induction ops with
  | nil => intro s h; exact h
  | cons op ops ih =>
    intro s h
    simp only [runOps, List.foldl_cons]
    exact ih (applyOp s op) (le_trans h (le_length_applyOp s op))

/-! ### Claim theorems -/

/-- C1 (counterexample): `read` does not reject addresses inside the
superblock region and does not detect truncation mid-record.  On a fresh
store, `read 8` (inside the superblock) succeeds, returning `[]`.  Writing
the record `"hello"` to a fresh store and truncating the file to 2058 bytes
cuts the 5-byte payload down to 2 bytes (second conjunct identifies the
truncated contents); `read 2048` on the truncated store then silently
returns the 2 remaining bytes `[104, 101]` instead of failing. -/
theorem read_superblock_and_truncation_cex :
    ((openStore []).read 8).1 = Except.ok [] ∧
    ((((openStore []).write [104, 101, 108, 108, 111]).2).file.take 2058
      = (List.replicate 2048 0 ++ [0, 0, 0, 0, 0, 0, 0, 5]) ++ [104, 101]) ∧
    ((Storage.mk ((List.replicate 2048 0 ++ [0, 0, 0, 0, 0, 0, 0, 5]) ++ [104, 101])
        0 true).read 2048).1 = Except.ok [104, 101] := by
  have hfile : (openStore []).file = List.replicate 2048 0 := by
    rw [openStore_file]; rfl
  have hlen2056 : (List.replicate (2048 : Nat) (0 : Nat)
      ++ [0, 0, 0, 0, 0, 0, 0, 5]).length = 2056 := by
    rw [List.length_append, List.length_replicate]
    rfl
  refine ⟨?_, ?_, ?_⟩
  · rw [read_fst, hfile, List.drop_replicate, List.take_replicate,
      List.drop_replicate]
    norm_num
    exact beVal_zero _ (fun b hb => List.eq_of_mem_replicate hb)
  · have hw := write_eq (openStore []) [104, 101, 108, 108, 111] (by norm_num)
    have hb : bytesBE 8 5 = [0, 0, 0, 0, 0, 0, 0, 5] := by rfl
    have hfile2 : (((openStore []).write [104, 101, 108, 108, 111]).2).file
        = (List.replicate 2048 0 ++ [0, 0, 0, 0, 0, 0, 0, 5])
          ++ [104, 101, 108, 108, 111] := by
      rw [hw]
      simp only [hfile]
      rw [show ([104, 101, 108, 108, 111] : List Nat).length = 5 from rfl, hb]
    rw [hfile2, List.take_append_eq_append_take,
      List.take_of_length_le (by rw [hlen2056]; norm_num), hlen2056]
    rfl
  · rw [read_fst, show (Storage.mk ((List.replicate 2048 0
        ++ [0, 0, 0, 0, 0, 0, 0, 5]) ++ [104, 101]) 0 true).file
      = (List.replicate 2048 0 ++ [0, 0, 0, 0, 0, 0, 0, 5]) ++ [104, 101] from rfl]
    rw [show (List.replicate (2048 : Nat) (0 : Nat) ++ [0, 0, 0, 0, 0, 0, 0, 5])
        ++ ([104, 101] : List Nat)
        = List.replicate 2048 0 ++ ([0, 0, 0, 0, 0, 0, 0, 5] ++ [104, 101]) from
      List.append_assoc _ _ _]
    rw [List.drop_left' (List.length_replicate 2048 0)]
    rw [show (2048 : Nat) + 8 = 2056 from rfl]
    rw [show List.replicate (2048 : Nat) (0 : Nat)
        ++ (([0, 0, 0, 0, 0, 0, 0, 5] : List Nat) ++ [104, 101])
        = (List.replicate 2048 0 ++ [0, 0, 0, 0, 0, 0, 0, 5]) ++ [104, 101] from
      (List.append_assoc _ _ _).symm]
    rw [List.drop_left' hlen2056]
    rfl

/-- C1 (amended): `read address` fails — with the codec's unpack error,
not a `CorruptData`/`OutOfRange` class, which the code never defines —
exactly when fewer than 8 bytes remain at `address` (in particular for any
address past `length - 8`, e.g. beyond end-of-store).  In every other case,
including addresses inside the superblock and records truncated after
their length prefix, it decodes the 8 bytes at `address` as a length and
silently returns up to that many bytes, possibly fewer than the decoded
length. -/
theorem read_failure_behavior (s : Storage) (address : Nat) :
    (s.read address).1 =
      if (s.file.drop address).length < 8 then Except.error PyError.structError
      else Except.ok ((s.file.drop (address + 8)).take
        (beVal ((s.file.drop address).take 8))) :=
  read_fst s address

/-- C2: for every store state and every payload of length at most `10 ^ 6`,
`write data` returns the current end-of-store offset as the address, and
`read` at that address on the resulting store returns exactly `data`. -/
theorem write_read_roundtrip (s : Storage) (data : List Nat)
    (h : data.length ≤ 10 ^ 6) :
    (s.write data).1 = Except.ok s.file.length ∧
    (((s.write data).2).read s.file.length).1 = Except.ok data := by
  have hd : data.length < 2 ^ 64 := lt_of_le_of_lt h (by norm_num)
  rw [write_eq s data hd]
  refine ⟨rfl, ?_⟩
  rw [read_fst]
  simp only [List.append_assoc, List.drop_left]
  rw [if_neg (by simp [length_bytesBE])]
  rw [List.take_left' (length_bytesBE 8 data.length),
    beVal_bytesBE data.length hd]
  rw [show s.file ++ (bytesBE 8 data.length ++ data)
      = (s.file ++ bytesBE 8 data.length) ++ data from
    (List.append_assoc _ _ _).symm]
  rw [List.drop_left' (by simp [length_bytesBE]), List.take_length]

/-- C2 (witness): round-trip at a concrete store and payload. -/
theorem write_read_roundtrip_witness :
    ((Storage.mk [] 0 false).write [1, 2, 3]).1 = Except.ok 0 ∧
    ((((Storage.mk [] 0 false).write [1, 2, 3]).2).read 0).1 =
      Except.ok [1, 2, 3] :=
  write_read_roundtrip (Storage.mk [] 0 false) [1, 2, 3] (by norm_num)

/-- C3 (counterexample): decoding fewer than 8 available bytes (here a
3-byte store) fails with the codec's own unpack error (`struct.error`),
which is not the `CorruptData` error class the specification names; there
is no explicit length check in `_btoi`/`_read_integer`. -/
theorem decode_short_buffer_cex :
    ((Storage.mk [1, 2, 3] 0 false).read_integer).1
      = Except.error PyError.structError ∧
    PyError.structError ≠ PyError.corruptData :=
  ⟨rfl, by decide⟩

/-- C3 (amended): whenever fewer than 8 bytes are available from the
underlying read, `_read_integer` never returns a value: the unpack inside
`_btoi` fails, but with the codec's `struct.error`, not with a
`CorruptData` error, and not through any explicit length check written in
this code. -/
theorem decode_short_buffer_fails (s : Storage)
    (h : (s.file.drop s.pos).length < 8) :
    (s.read_integer).1 = Except.error PyError.structError := by
  have h' : s.file.length - s.pos < 8 := by simpa using h
  simp [Storage.read_integer, Storage.fileRead, btoi, INTEGER_LENGTH,
    List.length_take, List.length_drop, Nat.not_le.mpr h']

/-- C3 (witness): the short-decode failure at a concrete 2-byte store. -/
theorem decode_short_buffer_fails_witness :
    ((Storage.mk [4, 5] 0 false).read_integer).1
      = Except.error PyError.structError :=
  decode_short_buffer_fails (Storage.mk [4, 5] 0 false) (by decide)

/-- C4: for every store state and every 64-bit address `X`, committing `X`,
closing, and re-opening the resulting file (which re-runs superblock
reservation) yields `get_root_address = X`. -/
theorem root_persistence (s : Storage) (X : Nat) (hX : X < 2 ^ 64) :
    ((openStore (((s.commit_root_address X).2.close).file)).get_root_address).1
      = Except.ok X := by
  have hfileC : ((s.commit_root_address X).2.close).file
      = bytesBE 8 X ++ s.file.drop 8 := by
    rw [commit_eq s X hX]
    rfl
  rw [hfileC,
    get_root_fst _ (le_trans (show (8 : Nat) ≤ SUPERBLOCK_SIZE by
      norm_num [SUPERBLOCK_SIZE]) (openStore_length _)),
    openStore_file, List.append_assoc, List.take_left' (length_bytesBE 8 X),
    beVal_bytesBE X hX]

/-- C4 (witness): commit/close/reopen at a concrete store and address. -/
theorem root_persistence_witness :
    ((openStore ((((Storage.mk [] 0 false).commit_root_address 5).2.close).file)).get_root_address).1
      = Except.ok 5 :=
  root_persistence (Storage.mk [] 0 false) 5 (by norm_num)

/-- C5: successive `write` calls return strictly increasing addresses with
no overlap: the first returns the current end-of-store `address₁`, the
second returns exactly `address₁ + 8 + len(data₁)`, which is strictly
greater than `address₁`. -/
theorem write_addresses_monotonic (s : Storage) (d1 d2 : List Nat)
    (h1 : d1.length < 2 ^ 64) (h2 : d2.length < 2 ^ 64) :
    (s.write d1).1 = Except.ok s.file.length ∧
    (((s.write d1).2).write d2).1 = Except.ok (s.file.length + 8 + d1.length) ∧
    s.file.length < s.file.length + 8 + d1.length := by
  rw [write_eq s d1 h1]
  refine ⟨rfl, ?_, by omega⟩
  rw [write_eq _ d2 h2]
  simp only [List.length_append, length_bytesBE]

/-- C5 (witness): two successive writes at a concrete store. -/
theorem write_addresses_monotonic_witness :
    ((Storage.mk [] 0 false).write [7]).1 = Except.ok 0 ∧
    ((((Storage.mk [] 0 false).write [7]).2).write []).1 = Except.ok 9 ∧
    (0 : Nat) < 9 :=
  write_addresses_monotonic (Storage.mk [] 0 false) [7] []
    (by norm_num) (by norm_num)

/-- C6 (counterexample): the claim quantifies over every backing store
shorter than `SUPERBLOCK_SIZE`, but `_reserve_superblock` only appends zero
padding after the existing bytes.  For the 8-byte store `[1,0,0,0,0,0,0,0]`
the reserved store has length exactly `SUPERBLOCK_SIZE`, yet
`get_root_address` decodes the surviving prefix as `2 ^ 56 ≠ 0`. -/
theorem fresh_store_root_cex :
    (openStore [1, 0, 0, 0, 0, 0, 0, 0]).file.length = SUPERBLOCK_SIZE ∧
    ((openStore [1, 0, 0, 0, 0, 0, 0, 0]).get_root_address).1
      = Except.ok 72057594037927936 ∧
    (72057594037927936 : Nat) ≠ 0 := by
  have hfile : (openStore [1, 0, 0, 0, 0, 0, 0, 0]).file
      = [1, 0, 0, 0, 0, 0, 0, 0] ++ List.replicate 2040 0 := by
    rw [openStore_file]
    rfl
  have hlen : (openStore [1, 0, 0, 0, 0, 0, 0, 0]).file.length
      = SUPERBLOCK_SIZE := by
    rw [hfile, List.length_append, List.length_replicate]
    rfl
  refine ⟨hlen, ?_, by norm_num⟩
  rw [get_root_fst _ (le_trans (show (8 : Nat) ≤ SUPERBLOCK_SIZE by
    norm_num [SUPERBLOCK_SIZE]) (openStore_length _)), hfile]
  rfl

/-- C6 (amended): for every backing store shorter than `SUPERBLOCK_SIZE`,
reservation pads the store to total length exactly `SUPERBLOCK_SIZE` with
zero bytes appended after the existing contents; `get_root_address`
returns 0 whenever the store's surviving first bytes (`l.take 8`) are all
zero — in particular for the empty (freshly created) store. -/
theorem fresh_store_amended (l : List Nat) (h : l.length < SUPERBLOCK_SIZE)
    (hz : ∀ b ∈ l.take 8, b = 0) :
    (openStore l).file.length = SUPERBLOCK_SIZE ∧
    ((openStore l).get_root_address).1 = Except.ok 0 := by
  have hlen : (openStore l).file.length = SUPERBLOCK_SIZE := by
    rw [openStore_file, List.length_append, List.length_replicate]
    omega
  refine ⟨hlen, ?_⟩
  rw [get_root_fst _ (by rw [hlen]; norm_num [SUPERBLOCK_SIZE])]
  have hz8 : ∀ b ∈ (openStore l).file.take 8, b = 0 := by
    rw [openStore_file, List.take_append_eq_append_take]
    intro b hb
    rcases List.mem_append.mp hb with h1 | h2
    · exact hz b h1
    · rw [List.take_replicate] at h2
      exact List.eq_of_mem_replicate h2
  rw [beVal_zero _ hz8]

/-- C6 (witness): the empty store reserves to length `SUPERBLOCK_SIZE`
with root address 0. -/
theorem fresh_store_amended_witness :
    (openStore []).file.length = SUPERBLOCK_SIZE ∧
    ((openStore []).get_root_address).1 = Except.ok 0 :=
  fresh_store_amended [] (by norm_num [SUPERBLOCK_SIZE]) (by simp)

/-- C7: superblock reservation is idempotent: on a store whose length is
already at least `SUPERBLOCK_SIZE`, the reservation step performs no
write — the file contents (hence every existing byte and record) and the
store length are unchanged. -/
theorem reserve_superblock_idempotent (s : Storage)
    (h : SUPERBLOCK_SIZE ≤ s.file.length) :
    (s.reserve_superblock).file = s.file ∧
    (s.reserve_superblock).file.length = s.file.length := by
  have hfile : (s.reserve_superblock).file = s.file := by
    simp only [Storage.reserve_superblock, lock_snd, Storage.seek_end,
      Storage.tell]
    rw [if_neg (by omega)]
  exact ⟨hfile, by rw [hfile]⟩

/-- C7 (witness): reservation on an exactly-2048-byte store is a no-op on
the contents. -/
theorem reserve_superblock_idempotent_witness :
    ((Storage.mk (List.replicate 2048 0) 0 false).reserve_superblock).file
      = List.replicate 2048 0 ∧
    ((Storage.mk (List.replicate 2048 0) 0 false).reserve_superblock).file.length
      = (List.replicate 2048 (0 : Nat)).length :=
  reserve_superblock_idempotent (Storage.mk (List.replicate 2048 0) 0 false)
    (by rw [List.length_replicate]; norm_num [SUPERBLOCK_SIZE])

/-- C8: after initialization, any sequence of public operations leaves the
store length at least `SUPERBLOCK_SIZE`; from any such reachable state,
`write` returns the current end-of-store (hence an address at least
`SUPERBLOCK_SIZE`) and only appends: the entire existing prefix of the
file — in particular bytes `[8, SUPERBLOCK_SIZE)` — is unchanged. -/
theorem superblock_invariant (l : List Nat) (ops : List Op) (d : List Nat)
    (hd : d.length < 2 ^ 64) :
    SUPERBLOCK_SIZE ≤ (runOps (openStore l) ops).file.length ∧
    ((runOps (openStore l) ops).write d).1
      = Except.ok (runOps (openStore l) ops).file.length ∧
    (((runOps (openStore l) ops).write d).2).file.take
        (runOps (openStore l) ops).file.length
      = (runOps (openStore l) ops).file := by
  refine ⟨runOps_ge ops (openStore l) (openStore_length l), ?_, ?_⟩
  · rw [write_eq _ d hd]
  · rw [write_eq _ d hd]
    rw [List.append_assoc]
    exact List.take_left _ _

/-- C8 (witness): the invariant at the freshly opened empty store. -/
theorem superblock_invariant_witness :
    SUPERBLOCK_SIZE ≤ (runOps (openStore []) []).file.length ∧
    ((runOps (openStore []) []).write [0]).1
      = Except.ok (runOps (openStore []) []).file.length ∧
    (((runOps (openStore []) []).write [0]).2).file.take
        (runOps (openStore []) []).file.length
      = (runOps (openStore []) []).file :=
  superblock_invariant [] [] [0] (by norm_num)

/-- C9: if the underlying OS-level lock acquisition inside `lock` fails,
the lock error propagates to the caller and the instance is left
unchanged — in particular its held flag `locked` is still `false`. -/
theorem lock_failure_state (s : Storage) (h : s.locked = false) :
    (s.lockWith (Except.error PyError.lockError)).1
      = Except.error PyError.lockError ∧
    (s.lockWith (Except.error PyError.lockError)).2 = s ∧
    ((s.lockWith (Except.error PyError.lockError)).2).locked = false := by
  refine ⟨?_, ?_, ?_⟩ <;> simp [Storage.lockWith, h]

/-- C9 (witness): the failing acquisition at a concrete unlocked store. -/
theorem lock_failure_state_witness :
    ((Storage.mk [] 0 false).lockWith (Except.error PyError.lockError)).1
      = Except.error PyError.lockError ∧
    ((Storage.mk [] 0 false).lockWith (Except.error PyError.lockError)).2
      = Storage.mk [] 0 false ∧
    (((Storage.mk [] 0 false).lockWith (Except.error PyError.lockError)).2).locked
      = false :=
  lock_failure_state (Storage.mk [] 0 false) rfl

/-- C10: on an initialized store, `commit_root_address r` succeeds and
modifies only bytes `[0, 8)` of the backing store, setting them to the
8-byte big-endian encoding of `r`; every byte at offset at least 8 and the
total store length are unchanged. -/
theorem commit_root_frame (s : Storage) (r : Nat) (hr : r < 2 ^ 64)
    (hs : SUPERBLOCK_SIZE ≤ s.file.length) :
    (s.commit_root_address r).1 = Except.ok () ∧
    (s.commit_root_address r).2.file.take 8 = bytesBE 8 r ∧
    (s.commit_root_address r).2.file.drop 8 = s.file.drop 8 ∧
    (s.commit_root_address r).2.file.length = s.file.length := by
  rw [commit_eq s r hr]
  refine ⟨rfl, ?_, ?_, ?_⟩
  · exact List.take_left' (length_bytesBE 8 r)
  · exact List.drop_left' (length_bytesBE 8 r)
  · rw [List.length_append, length_bytesBE, List.length_drop]
    have h2048 : (2048 : Nat) ≤ s.file.length := by
      simpa [SUPERBLOCK_SIZE] using hs
    omega

/-- C10 (witness): the frame condition at a concrete all-zero store. -/
theorem commit_root_frame_witness :
    ((Storage.mk (List.replicate 2048 0) 0 false).commit_root_address 3).1
      = Except.ok () ∧
    ((Storage.mk (List.replicate 2048 0) 0 false).commit_root_address 3).2.file.take 8
      = bytesBE 8 3 ∧
    ((Storage.mk (List.replicate 2048 0) 0 false).commit_root_address 3).2.file.drop 8
      = (List.replicate 2048 (0 : Nat)).drop 8 ∧
    ((Storage.mk (List.replicate 2048 0) 0 false).commit_root_address 3).2.file.length
      = (List.replicate 2048 (0 : Nat)).length :=
  commit_root_frame (Storage.mk (List.replicate 2048 0) 0 false) 3 (by norm_num)
    (by rw [List.length_replicate]; norm_num [SUPERBLOCK_SIZE])
